import Mathlib

/-
Verification of the thermostat live-view application (src/main.go).

The application stores its per-socket state in a `ThermoModel` whose
`Temperature` field is a Go `float32`.  Sections below embed, in order:
exact IEEE-754 binary32 arithmetic for the normal range (temperatures in
this program stay near 20), the Go dynamic-value universe used for the
socket's `assigns`, the application code of src/main.go (model
constructor, event handlers, self-message handlers, mount, render), and
models of the engine pieces the application is configured into (event
dispatch, pub/sub bridge delivery, socket lifecycle), which live in the
`jfyne/live` and `nats.go` libraries and are therefore modelled from the
specification.
-/

set_option maxRecDepth 40000
set_option maxHeartbeats 1000000

namespace ThermoLive

/-! ### Exact binary32 arithmetic (normal range)

A finite IEEE-754 binary32 value in the normal range is `n * 2 ^ (e - 23)`
with `2 ^ 23 ≤ n < 2 ^ 24` and `-126 ≤ e ≤ 127`.  Every such value is an
integer multiple of `2 ^ (-149)`, so we represent a float32 value by that
integer: `F32` holds the real value scaled by `2 ^ 149`.  Addition and
subtraction are exact on this representation followed by rounding to
nearest, ties to even — exactly what Go's `float32` `+` and `-` do.
Overflow to infinity and subnormal underflow are outside the range this
program reaches and are not modelled. -/

/-- Scaled-integer representation of a binary32 value: the real value
times `2 ^ 149`. -/
abbrev F32 := Int

/-- Fuel-driven base-2 logarithm: `natLog2F f n = ⌊log₂ n⌋` whenever
`n ≥ 1` and `f ≥ log₂ n`. -/
def natLog2F : Nat → Nat → Nat
  | 0, _ => 0
  | f + 1, n => if n ≤ 1 then 0 else natLog2F f (n / 2) + 1

/-- `⌊log₂ n⌋` for `n ≥ 1` (the fuel `n` always suffices). -/
def natLog2 (n : Nat) : Nat := natLog2F n n

/-- Round the nonnegative rational `N / D` to the nearest integer,
ties to even. -/
def roundNearTiesEven (N D : Nat) : Nat :=
  let q := N / D
  let r := N % D
  if 2 * r < D then q
  else if D < 2 * r then q + 1
  else if q % 2 = 0 then q else q + 1

/-- Decides `p / d < 2 ^ l` for naturals `p, d ≥ 1` and an integer
exponent `l`. -/
def qLtPow2 (p d : Nat) (l : Int) : Bool :=
  if 0 ≤ l then p < d * 2 ^ l.toNat else p * 2 ^ (-l).toNat < d

/-- `⌊log₂ (p / d)⌋` for `p, d ≥ 1`: the unique `e` with
`2 ^ e ≤ p / d < 2 ^ (e + 1)`. -/
def floorLog2 (p d : Nat) : Int :=
  let l : Int := (natLog2 p : Int) - (natLog2 d : Int)
  if qLtPow2 p d l then l - 1 else l

/-- Round the positive rational `p / d` to the nearest binary32 value
(nearest, ties to even), returned in the scaled-integer representation. -/
def f32OfRatPos (p d : Nat) : F32 :=
  let e := floorLog2 p d
  let k : Int := 23 - e
  let n :=
    if 0 ≤ k then roundNearTiesEven (p * 2 ^ k.toNat) d
    else roundNearTiesEven p (d * 2 ^ (-k).toNat)
  (n : Int) * 2 ^ (e + 126).toNat

/-- Round the rational `num / den` to the nearest binary32 value
(nearest, ties to even; rounding is symmetric about zero). -/
def f32OfRat (num : Int) (den : Nat) : F32 :=
  if num = 0 then 0
  else if 0 ≤ num then f32OfRatPos num.toNat den
  else -(f32OfRatPos (-num).toNat den)

/-- The binary32 value of the decimal literal `num / den`, e.g.
`lit32 1 10` is the Go `float32` constant `0.1`. -/
def lit32 (num : Int) (den : Nat) : F32 := f32OfRat num den

/-- Go `float32` addition: exact sum, then round to nearest binary32.
The exact sum of two scaled representations is the value scaled by
`2 ^ 149`, hence the denominator. -/
def add32 (a b : F32) : F32 := f32OfRat (a + b) (2 ^ 149)

/-- Go `float32` subtraction: exact difference, then round to nearest
binary32. -/
def sub32 (a b : F32) : F32 := f32OfRat (a - b) (2 ^ 149)

/-! ### Data model (src/main.go lines 17-27)

`ThermoModel` is the application state held in the socket's `assigns`;
`NatsMessage` is the wire struct decoded from the external pub/sub
feed. -/

/-- The application state, src/main.go lines 17-22.  `Temperature` is a
Go `float32`, represented exactly (see `F32`). -/
structure ThermoModel where
  Name : String
  Temperature : F32
  Status : String
  Time : String
deriving DecidableEq

/-- The struct decoded from external pub/sub messages, src/main.go
lines 24-27.  `Value` is an `int64`; its range is enforced where the
message is decoded. -/
structure NatsMessage where
  Name : String
  Value : Int
deriving DecidableEq

/-- A Go dynamic (`interface` typed) value, as stored in the socket's
`assigns`, in `live.Params` entries and in self-message payloads.  The
constructors cover the dynamic types this program can encounter. -/
inductive GoVal where
  | vnil
  | vbool (b : Bool)
  | vint (n : Int)
  | vfloat (a : F32)
  | vstr (s : String)
  | vthermo (m : ThermoModel)
deriving DecidableEq

/-- The Go dynamic type name of a value, as it appears in an interface
conversion panic message. -/
def goTypeName : GoVal → String
  | GoVal.vnil => "nil"
  | GoVal.vbool _ => "bool"
  | GoVal.vint _ => "int"
  | GoVal.vfloat _ => "float32"
  | GoVal.vstr _ => "string"
  | GoVal.vthermo _ => "*main.ThermoModel"

/-- The request data `NewThermoModel` reads from the context:
`live.Request(ctx).URL.Query().Get("name")`, src/main.go line 36. -/
structure Ctx where
  nameParam : String

/-- Modelled from the spec: `live.Params`, the parameter mapping of an
Event (the `jfyne/live` library is not in src/).  Keys map to dynamic
values; absent keys map to `GoVal.vnil`. -/
def Params : Type := String → GoVal

/-- Modelled from the spec: the `live.Params` accessor `p.Float32(key)`
(library not in src/): the float value stored under the key, `0` when the
key is absent or holds a non-float value. -/
def paramFloat32 (p : Params) (key : String) : F32 :=
  match p key with
  | GoVal.vfloat a => a
  | _ => 0

/-- Modelled from the spec: the `live.Params` accessor `p.String(key)`
(library not in src/): the string stored under the key, `""` when the
key is absent or holds a non-string value. -/
def paramString (p : Params) (key : String) : String :=
  match p key with
  | GoVal.vstr s => s
  | _ => ""

/-! ### Application code (src/main.go lines 31-93) -/

/-- `NewThermoModel`, src/main.go lines 31-44: the checked type
assertion `s.Assigns().(*ThermoModel)` returns the current model when
the socket's `assigns` already holds one; otherwise a fresh model is
built with the `name` query parameter, temperature `19.5`, status `"-"`
and empty time. -/
def NewThermoModel (ctx : Ctx) (assigns : GoVal) : ThermoModel :=
  match assigns with
  | GoVal.vthermo m => m
  | _ =>
    { Name := ctx.nameParam
      Temperature := lit32 39 2
      Status := "-"
      Time := "" }

/-- What one event handler returns to the engine: the new model (Go
returns it as `interface` data), the `s.Broadcast(topic, message)`
calls it made, and the error value (every handler in src/main.go
returns `nil`). -/
structure HandlerOut where
  model : ThermoModel
  broadcasts : List (String × String)
  err : Option String
deriving DecidableEq

/-- `tempUp`, src/main.go lines 57-61: `model.Temperature += 0.1`. -/
def tempUp (ctx : Ctx) (assigns : GoVal) (_p : Params) : HandlerOut :=
  let model := NewThermoModel ctx assigns
  { model := { model with Temperature := add32 model.Temperature (lit32 1 10) }
    broadcasts := []
    err := none }

/-- `tempDown`, src/main.go lines 63-67: `model.Temperature -= 0.1`. -/
def tempDown (ctx : Ctx) (assigns : GoVal) (_p : Params) : HandlerOut :=
  let model := NewThermoModel ctx assigns
  { model := { model with Temperature := sub32 model.Temperature (lit32 1 10) }
    broadcasts := []
    err := none }

/-- Fixed six-digit zero padding for the fractional part of a `%f`
rendering. -/
def pad6 (s : String) : String :=
  String.mk (List.replicate (6 - s.length) '0') ++ s

/-- Go `fmt`'s `%f` rendering of a binary32 value: the exact value
printed with six digits after the decimal point (rounded to nearest,
ties to even). -/
def formatF6 (a : F32) : String :=
  let sign := if a < 0 then "-" else ""
  let scaled := roundNearTiesEven (a.natAbs * 10 ^ 6) (2 ^ 149)
  sign ++ toString (scaled / 10 ^ 6) ++ "." ++ pad6 (toString (scaled % 10 ^ 6))

/-- `tempChange`, src/main.go lines 69-83: adds the `temperature`
parameter to the model's temperature and broadcasts a status line with
the old and new values. -/
def tempChange (ctx : Ctx) (assigns : GoVal) (p : Params) : HandlerOut :=
  let model := NewThermoModel ctx assigns
  let t0 := model.Temperature
  let t1 := add32 t0 (paramFloat32 p "temperature")
  { model := { model with Temperature := t1 }
    broadcasts :=
      [("status",
        model.Name ++ ": Temperature changed from " ++ formatF6 t0
          ++ " to " ++ formatF6 t1)]
    err := none }

/-- `saveEvent`, src/main.go lines 86-93: broadcasts the submitted chat
message on topic `status`; the model is returned unchanged. -/
def saveEvent (ctx : Ctx) (assigns : GoVal) (p : Params) : HandlerOut :=
  let model := NewThermoModel ctx assigns
  let message := paramString p "message"
  { model := model
    broadcasts := [("status", model.Name ++ ": " ++ message)]
    err := none }

/-- What `thermoMount` returns to the engine: the initial model, the
external pub/sub topics it subscribed to, and its error value. -/
structure MountOut where
  model : ThermoModel
  newSubscriptions : List String
  err : Option String

/-- `thermoMount`, src/main.go lines 46-55: subscribes the NATS
connection to topic `go-live` (line 49; the returned `Subscription`
handle is discarded) and returns `NewThermoModel(ctx, s), nil`. -/
def thermoMount (ctx : Ctx) (assigns : GoVal) : MountOut :=
  { model := NewThermoModel ctx assigns
    newSubscriptions := ["go-live"]
    err := none }

/-- Result of running Go code that may panic: either the value, or a
runtime panic with its message. -/
inductive GoResult (α : Type) where
  | ok (a : α)
  | panicked (msg : String)
deriving DecidableEq

/-- The unchecked Go type assertion `v.(string)`: yields the string, or
panics with an interface conversion error when the dynamic type is not
`string`. -/
def assertString (v : GoVal) : GoResult String :=
  match v with
  | GoVal.vstr s => GoResult.ok s
  | v =>
    GoResult.panicked
      ("interface conversion: interface \x7b\x7d is " ++ goTypeName v
        ++ ", not string")

/-- The self-message handler registered for topic `status`, src/main.go
lines 174-179: `model.Status = data.(string)` — the unchecked type
assertion panics on a non-string payload. -/
def statusSelfHandler (ctx : Ctx) (assigns : GoVal) (data : GoVal) :
    GoResult ThermoModel :=
  let model := NewThermoModel ctx assigns
  match assertString data with
  | GoResult.ok s => GoResult.ok { model with Status := s }
  | GoResult.panicked msg => GoResult.panicked msg

/-- The self-message handler registered for topic `time`, src/main.go
lines 181-186: `model.Time = data.(string)` — the unchecked type
assertion panics on a non-string payload. -/
def timeSelfHandler (ctx : Ctx) (assigns : GoVal) (data : GoVal) :
    GoResult ThermoModel :=
  let model := NewThermoModel ctx assigns
  match assertString data with
  | GoResult.ok s => GoResult.ok { model with Time := s }
  | GoResult.panicked msg => GoResult.panicked msg

/-! ### Engine model: phases, diagnostics, event dispatch

The dispatch loop itself lives in the `jfyne/live` library and is not in
src/; it is modelled from the specification (§4.2, §4.3).  The handler
registry below is the application's own configuration, src/main.go
lines 169-172. -/

/-- The socket lifecycle states of the specification (§4.2). -/
inductive SocketPhase where
  | Connecting
  | Mounted
  | Active
  | Disconnecting
  | Closed
deriving DecidableEq

/-- Diagnostics the engine surfaces without killing the socket
(specification §7). -/
inductive Diag where
  | UnknownEvent (name : String)
  | EventHandlerError (name : String) (msg : String)
  | NatsDecodeError
deriving DecidableEq

/-- A client-originated event: a name and its parameters. -/
structure Event where
  name : String
  params : Params

/-- The live state of one socket: its `assigns` (a Go dynamic value),
its lifecycle phase, the diagnostics surfaced so far and the broadcasts
it has emitted. -/
structure LiveState where
  assigns : GoVal
  phase : SocketPhase
  diags : List Diag
  outbox : List (String × String)

/-- The event registry built in `main`, src/main.go lines 169-172: the
four `h.HandleEvent` registrations, in order. -/
def handleEvent (name : String) :
    Option (Ctx → GoVal → Params → HandlerOut) :=
  if name = "temp-up" then some tempUp
  else if name = "temp-down" then some tempDown
  else if name = "temp-change" then some tempChange
  else if name = "save" then some saveEvent
  else none

/-- The self-message registry built in `main`, src/main.go
lines 174-186: the two `h.HandleSelf` registrations. -/
def handleSelf (topic : String) :
    Option (Ctx → GoVal → GoVal → GoResult ThermoModel) :=
  if topic = "status" then some statusSelfHandler
  else if topic = "time" then some timeSelfHandler
  else none

/-- Modelled from the spec: one step of the engine's event dispatch
(§4.3; the `jfyne/live` dispatch loop is not in src/).  An unregistered
event name is a no-op on `assigns` that surfaces `UnknownEvent`; a
handler error retains the prior `assigns` and surfaces
`EventHandlerError`; on success the handler's returned model becomes the
socket's `assigns` and its broadcasts are appended to the outbox.  The
lifecycle phase is never changed by dispatch. -/
def dispatch (ctx : Ctx) (st : LiveState) (ev : Event) : LiveState :=
  match handleEvent ev.name with
  | none => { st with diags := Diag.UnknownEvent ev.name :: st.diags }
  | some h =>
    let out := h ctx st.assigns ev.params
    match out.err with
    | some msg =>
      { st with diags := Diag.EventHandlerError ev.name msg :: st.diags }
    | none =>
      { st with
          assigns := GoVal.vthermo out.model
          outbox := st.outbox ++ out.broadcasts }

/-- The pure fold function of one event over the application model: the
registered handler applied to the current model (an unregistered name
leaves the model unchanged). -/
def stepModel (ctx : Ctx) (m : ThermoModel) (ev : Event) : ThermoModel :=
  match handleEvent ev.name with
  | some h => (h ctx (GoVal.vthermo m) ev.params).model
  | none => m

/-- Modelled from the spec: a freshly mounted socket (§4.2; the mount
orchestration is library code not in src/): the socket enters `Active`
with `assigns` set to the model `thermoMount` returned for a socket with
no prior assigns. -/
def mountSocket (ctx : Ctx) : LiveState :=
  { assigns := GoVal.vthermo (thermoMount ctx GoVal.vnil).model
    phase := SocketPhase.Active
    diags := []
    outbox := [] }

/-- Empty parameter mapping. -/
def noParams : Params := fun _ => GoVal.vnil

/-- The `temp-up` event with no parameters. -/
def evTempUp : Event := { name := "temp-up", params := noParams }

/-- The `temp-down` event with no parameters. -/
def evTempDown : Event := { name := "temp-down", params := noParams }

/-- An event name registered by no `h.HandleEvent` call. -/
def evFrobulate : Event := { name := "frobulate", params := noParams }

/-- A sample request context: empty `name` query parameter. -/
def ctx0 : Ctx := { nameParam := "" }

/-! ### Render pipeline (src/main.go lines 95-156)

`render` parses a constant template and executes it on the
`live.RenderContext`; the template reads only `.Assigns` fields.  The
template's rendering of the `float32` temperature (Go's default
formatting) is abstracted as a formatter parameter; literal braces of
the source template appear below as their escapes. -/

/-- The render context handed to `render`: the application assigns plus
the rest of the socket, which the template never reads. -/
structure RenderContext where
  Assigns : GoVal
  Socket : LiveState

/-- Template text before the user name. -/
def tmplHead : String :=
  "\n\t\t<html>\n\t\t\t<head>\n\t\t\t\t<link href=\"https://cdn.jsdelivr.net/npm/bootstrap@5.2.2/dist/css/bootstrap.min.css\" rel=\"stylesheet\" integrity=\"sha384-Zenh87qX5JnK2Jl0vWa8Ck2rdkQ2Bzep5IDxbcnCeuOxjzrPF/et3URy9Bv1WTRi\" crossorigin=\"anonymous\" />\n\t\t\t\t<script src=\"https://cdn.jsdelivr.net/npm/bootstrap@5.2.2/dist/js/bootstrap.bundle.min.js\" integrity=\"sha384-OERcA2EqjJCMA+/3y+gxIOqMEjwtxJY7qPCqsdltbNJuaOe923+mo//f6V8Qbsw3\" crossorigin=\"anonymous\"></script>\n\t\t\t</head>\n\t\t\t<body>\n\t\t\t  <div class=\"container\" style=\"text-align: center\">\n\t\t\t    <h4>User: "

/-- Template text between the user name and the temperature. -/
def tmplAfterName : String := "</h4>\n\t\t\t\t<h2>Temperature: "

/-- Template text between the temperature and the warning block. -/
def tmplAfterTemp : String := "C</h2>\n\t\t\t\t<div>\n\t\t\t\t\t"

/-- The warning the template emits when the temperature exceeds 25. -/
def tmplWarning : String :=
  "\n\t\t\t\t\t\t<h4 style=\"color: red\">Warning: Temperature is too high!!! (over 25C)</h4>\n\t\t\t\t\t"

/-- Template text between the warning block and the time span. -/
def tmplButtons : String :=
  "\n\t\t\t\t</div>\n\t\t\t\t<div style=\"padding-top: 20px\">\n                   <button live-click=\"temp-up\" live-window-keyup=\"temp-up\" live-key=\"ArrowUp\" class=\"btn btn-success btn-sm\">+0.1C</button> - \n\t\t\t\t   <button live-click=\"temp-down\" live-window-keyup=\"temp-down\" live-key=\"ArrowDown\"  class=\"btn btn-success btn-sm\">-0.1C</button>\n\t\t\t\t</div>\n\t\t\t\t<div style=\"padding-top: 20px; padding-bottom: 20px\">\n                   <button live-click=\"temp-change\" live-value-temperature=\"2\" class=\"btn btn-success btn-sm\">+2C</button> - \n\t\t\t\t   <button live-click=\"temp-change\" live-value-temperature=\"-2\" class=\"btn btn-success btn-sm\">-2C</button>\n\t\t\t\t</div>\n\t\t\t\t<div style=\"border: 1px solid black; padding: 5px\">\n\t\t\t\t   <span>"

/-- Template text between the time span and the status block. -/
def tmplForm : String :=
  "</span>\n\t\t\t\t</div>\n\t\t\t\t<div style=\"padding: 10px\">\n                 <form live-submit=\"save\" live-hook=\"submit\">\n\t\t\t\t   <input type=\"text\" name=\"message\" />&#160;\n\t\t\t\t   <input type=\"submit\" value=\"send ...\" class=\"btn btn-success btn-sm\" />\n\t\t\t\t </form>\n\t\t\t\t</div>\n\t\t\t\t<div live-update=\"prepend\">\n                  "

/-- Template text after the status block, including the hook script
whose literal braces are escaped. -/
def tmplTail : String :=
  "\n\t\t\t\t</div>\n\t\t\t  </div>\n\t\t\t\t<!-- Include to make live work -->\n\t\t\t\t<script src=\"/live.js\"></script>\n\t\t\t\t<script>\n\t\t\t\t\twindow.Hooks = \x7b\n\t\t\t\t\t\t\"submit\": \x7b\n\t\t\t\t\t\t\tmounted: function() \x7b\n\t\t\t\t\t\t\t\tthis.el.addEventListener(\"submit\", () => \x7b\n\t\t\t\t\t\t\t\t\tthis.el.querySelector(\"input\").value = \"\";\n\t\t\t\t\t\t\t\t\x7d);\n\t\t\t\t\t\t\t\x7d\n\t\t\t\t\t\t\x7d\n\t\t\t\t\t\x7d;\n\t\t\t\t</script>\n\t\t\t</body>\n\t\t</html>\n\t"

/-- `render`, src/main.go lines 95-156: the constant template parses, and
executing it reads exactly `.Assigns.Name`, `.Assigns.Temperature` (also
compared against `25.0` for the warning block), `.Assigns.Time` and
`.Assigns.Status`.  Execution fails when `Assigns` does not hold a
`*ThermoModel` (the template cannot resolve the fields); the float
formatter used for the temperature is a parameter. -/
def render (floatFmt : F32 → String) (rc : RenderContext) :
    Except String String :=
  match rc.Assigns with
  | GoVal.vthermo m =>
    Except.ok
      (tmplHead ++ m.Name ++ tmplAfterName ++ floatFmt m.Temperature
        ++ tmplAfterTemp
        ++ (if lit32 25 1 < m.Temperature then tmplWarning else "")
        ++ tmplButtons ++ m.Time ++ tmplForm ++ m.Status ++ tmplTail)
  | v =>
    Except.error
      ("template: thermo: executing \"thermo\": can't evaluate field on "
        ++ goTypeName v)

/-! ### Pub/sub bridge (external message delivery)

The NATS encoded connection (`nats.go` with the JSON encoder) is not in
src/; its decode-and-deliver behaviour is modelled from the
specification (§4.6). -/

/-- A JSON document, the wire format of the external pub/sub feed
(`nats.NewEncodedConn` with `nats.JSON_ENCODER`, src/main.go
line 162). -/
inductive Json where
  | jnull
  | jbool (b : Bool)
  | jnum (n : Int)
  | jstr (s : String)
  | jarr (elems : List Json)
  | jobj (fields : List (String × Json))

/-- Smallest `int64` value. -/
def int64Min : Int := -(2 ^ 63)

/-- Largest `int64` value. -/
def int64Max : Int := 2 ^ 63 - 1

/-- Modelled from the spec: decoding one JSON field into a
`NatsMessage` under Go's `encoding/json` rules (the decoder is library
code not in src/): a `null` field value is a no-op, a matching field
must hold the struct's type (`string` for `Name`, an in-range integer
for `Value`), and unknown fields are ignored. -/
def decodeField (m : NatsMessage) : String × Json → Option NatsMessage
  | ("Name", Json.jnull) => some m
  | ("Name", Json.jstr s) => some { m with Name := s }
  | ("Name", _) => none
  | ("Value", Json.jnull) => some m
  | ("Value", Json.jnum n) =>
    if int64Min ≤ n ∧ n ≤ int64Max then some { m with Value := n } else none
  | ("Value", _) => none
  | (_, _) => some m

/-- Modelled from the spec: decoding a JSON document into the
`*NatsMessage` argument of the `go-live` subscription callback
(src/main.go line 49); a document that is neither `null` nor an object
with well-typed fields does not decode. -/
def decodeNatsMessage : Json → Option NatsMessage
  | Json.jnull => some { Name := "", Value := 0 }
  | Json.jobj fields =>
    fields.foldl (fun acc f => acc.bind (fun m => decodeField m f))
      (some { Name := "", Value := 0 })
  | _ => none

/-- The process as the bridge sees it: every live socket, and the
process diagnostics log. -/
structure BridgeWorld where
  sockets : List LiveState
  diags : List Diag

/-- Modelled from the spec: delivery of one raw external message on the
bridge subscription (§4.6; the `nats.go` encoded-connection delivery
loop is not in src/).  The payload is decoded into a `NatsMessage`; on
decode failure the message is logged and dropped — the subscription
callback is not invoked and no socket is touched — and on success the
callback runs. -/
def bridgeDeliver (cb : NatsMessage → BridgeWorld → BridgeWorld)
    (w : BridgeWorld) (raw : Json) : BridgeWorld :=
  match decodeNatsMessage raw with
  | none => { w with diags := Diag.NatsDecodeError :: w.diags }
  | some m => cb m w

/-! ### Subscription lifecycle (claim about teardown)

What the application itself does with the process-wide NATS connection:
`thermoMount` subscribes to `go-live` and discards the returned
`Subscription` handle (src/main.go line 49); no statement in src/ ever
calls `Unsubscribe` or `Drain`. -/

/-- Process-level view of one socket's lifecycle: the NATS topics
currently subscribed on the shared connection, how many times
`Unsubscribe` has been called, and the socket's phase. -/
structure ProcState where
  subs : List String
  unsubCalls : Nat
  phase : SocketPhase
deriving DecidableEq

/-- Mounting per `thermoMount`, src/main.go lines 46-55: the `go-live`
subscription is added on the shared NATS connection; its handle is
discarded. -/
def mountProc (ps : ProcState) : ProcState :=
  { ps with subs := "go-live" :: ps.subs, phase := SocketPhase.Mounted }

/-- Modelled from the spec: socket disconnection (§4.2, Disconnecting to
Closed; the engine teardown is library code not in src/).  The engine
releases its own socket resources, but the application registers no
teardown and no statement in src/ calls `Unsubscribe`, so the NATS
subscription set and the unsubscribe count are unchanged. -/
def disconnectProc (ps : ProcState) : ProcState :=
  { ps with phase := SocketPhase.Closed }

/-! ### Helper lemmas -/

/-- Every handler the event registry can return yields a `nil` error on
every input (each of the four handlers in src/main.go returns
`..., nil`). -/
lemma handlers_err_none (name : String)
    (h : Ctx → GoVal → Params → HandlerOut)
    (hh : handleEvent name = some h) (ctx : Ctx) (a : GoVal) (p : Params) :
    (h ctx a p).err = none := by
  unfold handleEvent at hh
  split_ifs at hh <;> (cases hh; rfl)

/-- Starting from the binary32 value `19.5`, two binary32 additions of
the binary32 constant `0.1` land exactly on the binary32 value of the
literal `19.7` (both are `10328474 * 2 ^ (-19)`). -/
lemma add_tenth_twice_from_19_5 :
    add32 (add32 (lit32 39 2) (lit32 1 10)) (lit32 1 10) = lit32 197 10 := by
  decide

/-! ### Claims -/

/-- Claim C1: mounting a socket with no prior assigns initialises the
temperature to `19.5` (via `NewThermoModel`), and dispatching the
`temp-up` event twice yields assigns whose `Temperature` equals exactly
the `float32` literal `19.7`: the stored bits are those of `19.7`, so
the Go comparison `assigns.Temperature == 19.7` holds (as a real number
both sides are `10328474 / 2 ^ 19`). -/
theorem temp_up_twice_hits_exact_19_7 (ctx : Ctx) :
    (dispatch ctx (dispatch ctx (mountSocket ctx) evTempUp) evTempUp).assigns
      = GoVal.vthermo
          { Name := ctx.nameParam
            Temperature := lit32 197 10
            Status := "-"
            Time := "" } := by
  show GoVal.vthermo
      { Name := ctx.nameParam
        Temperature := add32 (add32 (lit32 39 2) (lit32 1 10)) (lit32 1 10)
        Status := "-"
        Time := "" } = _
  rw [add_tenth_twice_from_19_5]

/-- Claim C2: for every finite sequence of events whose names are all
registered, dispatching them in order through the engine equals the
left-fold of the registered handler functions over the initial mounted
model, in arrival order. -/
theorem assigns_is_foldl_of_handlers (ctx : Ctx) (evs : List Event) :
    ∀ (st : LiveState) (m0 : ThermoModel),
      st.assigns = GoVal.vthermo m0 →
      (∀ ev ∈ evs, (handleEvent ev.name).isSome) →
      (evs.foldl (dispatch ctx) st).assigns
        = GoVal.vthermo (evs.foldl (stepModel ctx) m0) := by
  induction evs with
  | nil => intro st m0 h _; simpa using h
  | cons e evs ih =>
    intro st m0 h hall
    have he := hall e (List.mem_cons_self e evs)
    obtain ⟨hdl, hh⟩ := Option.isSome_iff_exists.mp he
    have herr := handlers_err_none e.name hdl hh ctx st.assigns e.params
    rw [h] at herr
    have hstep : (dispatch ctx st e).assigns
        = GoVal.vthermo (stepModel ctx m0 e) := by
      simp only [dispatch, stepModel, hh, h, herr]
    simp only [List.foldl_cons]
    exact ih (dispatch ctx st e) (stepModel ctx m0 e) hstep
      (fun ev hv => hall ev (List.mem_cons_of_mem e hv))

/-- Witness for claim C2: a mounted socket fed `temp-up` then
`temp-down` ends with assigns equal to the fold of the two handlers over
the mounted model. -/
theorem assigns_foldl_witness :
    ([evTempUp, evTempDown].foldl (dispatch ctx0) (mountSocket ctx0)).assigns
      = GoVal.vthermo
          ([evTempUp, evTempDown].foldl (stepModel ctx0)
            (thermoMount ctx0 GoVal.vnil).model) :=
  assigns_is_foldl_of_handlers ctx0 [evTempUp, evTempDown]
    (mountSocket ctx0) (thermoMount ctx0 GoVal.vnil).model rfl
    (by
      intro ev hv
      simp only [List.mem_cons, List.not_mem_nil, or_false] at hv
      rcases hv with rfl | rfl <;> rfl)

/-- Claim C3 counterexample: delivering the payload `42` (an `int`, not
the expected string) to the registered `status` self-message handler
does not produce a `PayloadDecodeError` — the handler's unchecked type
assertion `data.(string)` (src/main.go line 176) panics, so the
invocation is not total and the socket's processing crashes. -/
theorem status_handler_panics_on_int_payload :
    statusSelfHandler ctx0
        (GoVal.vthermo { Name := "", Temperature := 0, Status := "-", Time := "" })
        (GoVal.vint 42)
      = GoResult.panicked
          "interface conversion: interface \x7b\x7d is int, not string" := rfl

/-- Claim C3 (amended): the registered `status` and `time` self-message
handlers succeed on every string payload; a payload of any other dynamic
type makes them panic with a Go interface-conversion panic (no
`PayloadDecodeError` exists in this program), so the invocation is total
only on string payloads. -/
theorem self_handlers_string_or_panic (ctx : Ctx) (a : GoVal) (s : String)
    (d : GoVal) :
    statusSelfHandler ctx a (GoVal.vstr s)
      = GoResult.ok { NewThermoModel ctx a with Status := s }
    ∧ timeSelfHandler ctx a (GoVal.vstr s)
      = GoResult.ok { NewThermoModel ctx a with Time := s }
    ∧ ((∀ s', d ≠ GoVal.vstr s') →
        statusSelfHandler ctx a d
          = GoResult.panicked
              ("interface conversion: interface \x7b\x7d is "
                ++ goTypeName d ++ ", not string")
        ∧ timeSelfHandler ctx a d
          = GoResult.panicked
              ("interface conversion: interface \x7b\x7d is "
                ++ goTypeName d ++ ", not string")) := by
  refine ⟨rfl, rfl, fun hd => ?_⟩
  cases d with
  | vstr s' => exact absurd rfl (hd s')
  | vnil => exact ⟨rfl, rfl⟩
  | vbool b => exact ⟨rfl, rfl⟩
  | vint n => exact ⟨rfl, rfl⟩
  | vfloat q => exact ⟨rfl, rfl⟩
  | vthermo m' => exact ⟨rfl, rfl⟩

/-- Witness for the amended claim C3: a string payload succeeds on the
`status` handler; a boolean payload makes the `time` handler panic. -/
theorem self_handlers_witness :
    statusSelfHandler ctx0 GoVal.vnil (GoVal.vstr "hello")
      = GoResult.ok { NewThermoModel ctx0 GoVal.vnil with Status := "hello" }
    ∧ timeSelfHandler ctx0 GoVal.vnil (GoVal.vbool true)
      = GoResult.panicked
          ("interface conversion: interface \x7b\x7d is "
            ++ goTypeName (GoVal.vbool true) ++ ", not string") :=
  ⟨(self_handlers_string_or_panic ctx0 GoVal.vnil "hello"
      (GoVal.vbool true)).1,
   ((self_handlers_string_or_panic ctx0 GoVal.vnil "hello"
      (GoVal.vbool true)).2.2 (fun _ h => nomatch h)).2⟩

/-- Claim C4: `render` is deterministic and idempotent — its output
depends only on the `Assigns` of the render context (the template reads
nothing else, and parses a constant text), and rendering the same
assigns twice with no intervening mutation yields identical output. -/
theorem render_deterministic_in_assigns (floatFmt : F32 → String)
    (rc rc' : RenderContext) (h : rc.Assigns = rc'.Assigns) :
    render floatFmt rc = render floatFmt rc'
    ∧ render floatFmt rc = render floatFmt rc := by
  refine ⟨?_, rfl⟩
  unfold render
  rw [h]

/-- Witness for claim C4: two render contexts with the same assigns but
different socket components (one socket has extra diagnostics) render
identically. -/
theorem render_witness :
    render (fun _ => "19.5")
        { Assigns := GoVal.vthermo (NewThermoModel ctx0 GoVal.vnil)
          Socket := mountSocket ctx0 }
      = render (fun _ => "19.5")
        { Assigns := GoVal.vthermo (NewThermoModel ctx0 GoVal.vnil)
          Socket := dispatch ctx0 (mountSocket ctx0) evFrobulate } :=
  (render_deterministic_in_assigns (fun _ => "19.5") _ _ rfl).1

/-- Claim C5: dispatching an event whose name is outside the registered
set `temp-up`, `temp-down`, `temp-change`, `save` on an `Active` socket
leaves `assigns` unchanged, surfaces an `UnknownEvent` diagnostic, and
the socket remains `Active`. -/
theorem unknown_event_is_active_no_op (ctx : Ctx) (st : LiveState)
    (ev : Event) (hA : st.phase = SocketPhase.Active)
    (hn : ev.name ∉ ["temp-up", "temp-down", "temp-change", "save"]) :
    (dispatch ctx st ev).assigns = st.assigns
    ∧ (dispatch ctx st ev).phase = SocketPhase.Active
    ∧ Diag.UnknownEvent ev.name ∈ (dispatch ctx st ev).diags := by
  have h1 : ev.name ≠ "temp-up" := by intro h; exact hn (by simp [h])
  have h2 : ev.name ≠ "temp-down" := by intro h; exact hn (by simp [h])
  have h3 : ev.name ≠ "temp-change" := by intro h; exact hn (by simp [h])
  have h4 : ev.name ≠ "save" := by intro h; exact hn (by simp [h])
  have hnone : handleEvent ev.name = none := by
    simp [handleEvent, h1, h2, h3, h4]
  have hd : dispatch ctx st ev
      = { st with diags := Diag.UnknownEvent ev.name :: st.diags } := by
    simp only [dispatch, hnone]
  rw [hd]
  exact ⟨rfl, hA, List.mem_cons_self _ _⟩

/-- Witness for claim C5: dispatching the unknown event `frobulate` on a
freshly mounted (Active) socket leaves assigns unchanged, keeps the
socket Active, and surfaces `UnknownEvent "frobulate"`. -/
theorem unknown_event_witness :
    (dispatch ctx0 (mountSocket ctx0) evFrobulate).assigns
      = (mountSocket ctx0).assigns
    ∧ (dispatch ctx0 (mountSocket ctx0) evFrobulate).phase
      = SocketPhase.Active
    ∧ Diag.UnknownEvent "frobulate"
        ∈ (dispatch ctx0 (mountSocket ctx0) evFrobulate).diags :=
  unknown_event_is_active_no_op ctx0 (mountSocket ctx0) evFrobulate rfl
    (by decide)

/-- Claim C6: when the bridge subscription on topic `go-live` receives a
payload that does not decode into a `NatsMessage`, no socket changes (in
particular no socket's assigns), nothing crashes (delivery is a total
function), and a decode-failure diagnostic is recorded; the subscription
callback is never invoked. -/
theorem malformed_bridge_message_dropped
    (cb : NatsMessage → BridgeWorld → BridgeWorld) (w : BridgeWorld)
    (raw : Json) (hbad : decodeNatsMessage raw = none) :
    (bridgeDeliver cb w raw).sockets = w.sockets
    ∧ (bridgeDeliver cb w raw).diags = Diag.NatsDecodeError :: w.diags := by
  have hred : bridgeDeliver cb w raw
      = { w with diags := Diag.NatsDecodeError :: w.diags } := by
    unfold bridgeDeliver
    rw [hbad]
  rw [hred]
  exact ⟨rfl, rfl⟩

/-- Witness for claim C6: a bare string is not a `NatsMessage`; its
delivery leaves the (empty) socket list unchanged and records the
decode-failure diagnostic. -/
theorem malformed_bridge_witness :
    (bridgeDeliver (fun _ w => w) { sockets := [], diags := [] }
        (Json.jstr "malformed")).sockets = []
    ∧ (bridgeDeliver (fun _ w => w) { sockets := [], diags := [] }
        (Json.jstr "malformed")).diags = [Diag.NatsDecodeError] :=
  malformed_bridge_message_dropped (fun _ w => w)
    { sockets := [], diags := [] } (Json.jstr "malformed") rfl

/-- Claim C7 (code evaluated at the failing input): mounting a socket
and then disconnecting it leaves the `go-live` NATS subscription active
with zero `Unsubscribe` calls — `thermoMount` discards the
`Subscription` handle (src/main.go line 49) and no statement in src/
ever unsubscribes, so the subscription is not torn down at
`Disconnecting` and outlives its closed socket. -/
theorem go_live_subscription_outlives_socket :
    (disconnectProc (mountProc
        { subs := [], unsubCalls := 0,
          phase := SocketPhase.Connecting })).phase = SocketPhase.Closed
    ∧ (disconnectProc (mountProc
        { subs := [], unsubCalls := 0,
          phase := SocketPhase.Connecting })).subs = ["go-live"]
    ∧ (disconnectProc (mountProc
        { subs := [], unsubCalls := 0,
          phase := SocketPhase.Connecting })).unsubCalls = 0 :=
  ⟨rfl, rfl, rfl⟩

/-- Claim C8: `NewThermoModel` returns an already-initialised model
unchanged (so it is idempotent), and only when the assigns is absent or
of another dynamic type does it build the fresh model with temperature
`19.5`, status `"-"`, empty time, and the `name` query parameter. -/
theorem NewThermoModel_identity_and_fresh (ctx : Ctx) (m : ThermoModel)
    (a : GoVal) :
    NewThermoModel ctx (GoVal.vthermo m) = m
    ∧ NewThermoModel ctx (GoVal.vthermo (NewThermoModel ctx a))
        = NewThermoModel ctx a
    ∧ ((∀ m', a ≠ GoVal.vthermo m') →
        NewThermoModel ctx a
          = { Name := ctx.nameParam, Temperature := lit32 39 2,
              Status := "-", Time := "" }) := by
  refine ⟨rfl, rfl, fun h => ?_⟩
  cases a with
  | vthermo m' => exact absurd rfl (h m')
  | vnil => rfl
  | vbool b => rfl
  | vint n => rfl
  | vfloat q => rfl
  | vstr s => rfl

/-- Witness for claim C8: on a socket with no prior assigns,
`NewThermoModel` builds the fresh model from the `name` query
parameter. -/
theorem NewThermoModel_witness :
    NewThermoModel { nameParam := "alice" } GoVal.vnil
      = { Name := "alice", Temperature := lit32 39 2,
          Status := "-", Time := "" } :=
  (NewThermoModel_identity_and_fresh { nameParam := "alice" }
      { Name := "", Temperature := 0, Status := "", Time := "" }
      GoVal.vnil).2.2 (fun _ h => nomatch h)

/-- Claim C9: each handler mutates only its designated field of an
already-initialised model — `tempUp` and `tempDown` change only
`Temperature`, the `status` self-handler only `Status`, the `time`
self-handler only `Time`; the record-update statements make every other
field's preservation explicit. -/
theorem handlers_touch_only_their_field (ctx : Ctx) (m : ThermoModel)
    (p : Params) (s : String) :
    (tempUp ctx (GoVal.vthermo m) p).model
      = { m with Temperature := add32 m.Temperature (lit32 1 10) }
    ∧ (tempDown ctx (GoVal.vthermo m) p).model
      = { m with Temperature := sub32 m.Temperature (lit32 1 10) }
    ∧ statusSelfHandler ctx (GoVal.vthermo m) (GoVal.vstr s)
      = GoResult.ok { m with Status := s }
    ∧ timeSelfHandler ctx (GoVal.vthermo m) (GoVal.vstr s)
      = GoResult.ok { m with Time := s } :=
  ⟨rfl, rfl, rfl, rfl⟩

/-- Claim C10: the mount function and every registered event handler
return a `nil` error on every input, so a connection is never refused at
mount and the error-retention branch of event dispatch is unreachable
for this application. -/
theorem mount_and_handlers_never_error (ctx : Ctx) (a : GoVal)
    (p : Params) :
    (thermoMount ctx a).err = none
    ∧ (tempUp ctx a p).err = none
    ∧ (tempDown ctx a p).err = none
    ∧ (tempChange ctx a p).err = none
    ∧ (saveEvent ctx a p).err = none :=
  ⟨rfl, rfl, rfl, rfl, rfl⟩

end ThermoLive
